import Mathlib

/-!
Shallow embedding of the date normalization and faceting engine of
`pacific_rim_library` (file `date_cleaner_and_faceter.py`, class
`DateCleanerAndFaceter`).

The Python code works by applying a fixed library of regular expressions to
free-text date strings.  We embed a small backtracking regular-expression
matcher with Python `re` semantics (ordered alternation, greedy quantifiers,
capture groups, `re.match` / `re.findall` / `re.sub`), transcribe each regex
of the source into a term of the `RE` type, and translate each method of the
class into a Lean function.  Python exceptions are modelled explicitly with
the `Py` result type; `try/except` blocks of the source become matches on
`Py` values, so that the exception behaviour of the public entry points
`decades` and `years` is part of the model.

The external library call `dateutil.parser.parse` is not part of the
repository; it is modelled as an oracle `parse : String → Option Int`
returning the parsed year on success and `none` when it raises `ValueError`
(its failure mode on unparseable date strings).  `parse` applied to a Python
`set` raises `TypeError` ("Parser must be a string"), which the embedding of
`_extract_year_data` reproduces for set-valued input.
-/

/-- Python exception kinds that can arise in the translated code. -/
inductive PyExc where
  | typeError
  | assertionError
  | valueError
  | attributeError
  | indexError
  | nameError
deriving DecidableEq, Repr

/-- Result of running a piece of Python code: a normal value or a raised
exception. -/
inductive Py (α : Type) where
  | ok (a : α)
  | exc (e : PyExc)
deriving DecidableEq, Repr

def Py.bind {α β : Type} (x : Py α) (f : α → Py β) : Py β :=
  match x with
  | .ok a => f a
  | .exc e => .exc e

instance : Monad Py where
  pure := Py.ok
  bind := Py.bind

/-! ## Character classes

All character tests are by Unicode code point, which coincides with the
ASCII semantics that the source's patterns rely on. -/

/-- `\d` : a decimal digit. -/
def isDig (c : Char) : Bool := 48 ≤ c.toNat && c.toNat ≤ 57

/-- `[1-9]` : a nonzero decimal digit. -/
def isDig19 (c : Char) : Bool := 49 ≤ c.toNat && c.toNat ≤ 57

/-- `\D` : anything but a decimal digit. -/
def isNonDig (c : Char) : Bool := !(isDig c)

/-- `\s` : Python whitespace (space, tab, newline, carriage return,
vertical tab, form feed). -/
def isSpaceCh (c : Char) : Bool :=
  c.toNat = 32 || c.toNat = 9 || c.toNat = 10 || c.toNat = 13 ||
  c.toNat = 11 || c.toNat = 12

/-- Numeric value of a digit character. -/
def digitVal (c : Char) : Nat := c.toNat - 48

/-! ## A small regex engine with Python `re` semantics -/

/-- Regular expressions as used by the source: ordered alternation, greedy
optional, greedy star/plus over a character class (the only unbounded
repetitions in the source's patterns are over single-character classes),
numbered capture groups and the lookahead `(?=...)` restricted to a test on
the next character (the only lookahead in the source is `(?=\D|$)`; the
anchor `$` is the test "no next character"). -/
inductive RE where
  | eps
  | cls (p : Char → Bool)
  | cat (r₁ r₂ : RE)
  | alt (r₁ r₂ : RE)
  | opt (r : RE)
  | starCls (p : Char → Bool)
  | plusCls (p : Char → Bool)
  | grp (n : Nat) (r : RE)
  | look (p : Option Char → Bool)

/-- Capture list: group number paired with the captured text.  A group
absent from the list did not participate in the match (Python `None`). -/
abbrev Caps := List (Nat × String)

/-- Length of the longest prefix of `cs` whose characters satisfy `p`. -/
def countLeading (p : Char → Bool) (cs : List Char) : Nat :=
  (cs.takeWhile p).length

/-- Greedy matching of a class repetition: try consuming `n` characters
first, then backtrack one character at a time. -/
def starTry (cs : List Char) (caps : Caps)
    (k : List Char → Caps → Option (List Char × Caps)) :
    Nat → Option (List Char × Caps)
  | 0 => k cs caps
  | j + 1 => (k (cs.drop (j + 1)) caps).orElse (fun _ => starTry cs caps k j)

/-- Backtracking matcher in continuation-passing style.  `reMatch r cs caps k`
tries to match `r` against a prefix of `cs`; on each way of matching it calls
`k` with the remaining characters and the extended capture list, and
backtracks while `k` returns `none`.  Alternation is ordered (left first) and
`opt`/`starCls`/`plusCls` are greedy, exactly as in Python `re`. -/
def reMatch : RE → List Char → Caps →
    (List Char → Caps → Option (List Char × Caps)) → Option (List Char × Caps)
  | .eps, cs, caps, k => k cs caps
  | .cls p, cs, caps, k =>
    match cs with
    | [] => none
    | c :: cs' => if p c then k cs' caps else none
  | .cat r₁ r₂, cs, caps, k =>
    reMatch r₁ cs caps (fun cs' caps' => reMatch r₂ cs' caps' k)
  | .alt r₁ r₂, cs, caps, k =>
    (reMatch r₁ cs caps k).orElse (fun _ => reMatch r₂ cs caps k)
  | .opt r, cs, caps, k =>
    (reMatch r cs caps k).orElse (fun _ => k cs caps)
  | .starCls p, cs, caps, k => starTry cs caps k (countLeading p cs)
  | .plusCls p, cs, caps, k =>
    match cs with
    | [] => none
    | c :: cs' => if p c then starTry cs' caps k (countLeading p cs') else none
  | .grp n r, cs, caps, k =>
    reMatch r cs caps
      (fun cs' caps' =>
        k cs' ((n, String.mk (cs.take (cs.length - cs'.length))) :: caps'))
  | .look p, cs, caps, k => if p cs.head? then k cs caps else none

/-- Python `match.group(n)`: the captured text of group `n`, or `none` when
the group did not participate. -/
def capsGet (caps : Caps) (n : Nat) : Option String :=
  (caps.find? (fun pr => pr.1 = n)).map (fun pr => pr.2)

/-- `re.match(r, s)` (anchored at the start, not at the end): on success
returns the matched text (`match.group(0)`) and the capture list. -/
def anchMatch (r : RE) (s : String) : Option (String × Caps) :=
  (reMatch r s.data [] (fun rem caps => some (rem, caps))).map
    (fun pr => (String.mk (s.data.take (s.data.length - pr.1.length)), pr.2))

/-- Literal string regex. -/
def lit (s : String) : RE :=
  s.data.foldr (fun c r => RE.cat (RE.cls (fun d => d = c)) r) RE.eps

/-- Right-nested concatenation of a list of regexes. -/
def catList (rs : List RE) : RE := rs.foldr RE.cat RE.eps

/-- Right-nested ordered alternation of a list of regexes (first wins). -/
def altList (rs : List RE) : RE :=
  match rs with
  | [] => RE.eps
  | [r] => r
  | r :: rest => RE.alt r (altList rest)

/-! ## The pattern library (`DateCleanerAndFaceter.__init__`)

Each definition below transcribes one entry of `self.regexes` from the
source, with the same composition structure.  Alternation order follows the
source text left to right. -/

/-- `regexes['match']['suffix-bce'] = r'BC|B\.C\.|BCE|B\.C\.E\.'` -/
def suffixBceRE : RE := altList [lit "BC", lit "B.C.", lit "BCE", lit "B.C.E."]

/-- `regexes['match']['suffix-ce'] = r'AD|A\.D\.|CE|C\.E\.'` -/
def suffixCeRE : RE := altList [lit "AD", lit "A.D.", lit "CE", lit "C.E."]

/-- `regexes['match']['suffix'] = r'(?:BCE-alts|CE-alts)'` -/
def suffixRE : RE := RE.alt suffixBceRE suffixCeRE

/-- `regexes['match']['mm'] = r'(?:0[1-9]|1[0-2])'` -/
def mmRE : RE :=
  RE.alt (RE.cat (lit "0") (RE.cls isDig19))
    (RE.cat (lit "1") (RE.cls (fun c => 48 ≤ c.toNat && c.toNat ≤ 50)))

/-- `regexes['match']['dd'] = r'(?:0[1-9]|[1-2]\d|3[0-1])'` -/
def ddRE : RE :=
  altList
    [RE.cat (lit "0") (RE.cls isDig19),
     RE.cat (RE.cls (fun c => 49 ≤ c.toNat && c.toNat ≤ 50)) (RE.cls isDig),
     RE.cat (lit "3") (RE.cls (fun c => 48 ≤ c.toNat && c.toNat ≤ 49))]

/-- `regexes['match']['mon']`: the twelve three-letter month names. -/
def monRE : RE :=
  altList
    [lit "Jan", lit "Feb", lit "Mar", lit "Apr", lit "May", lit "Jun",
     lit "Jul", lit "Aug", lit "Sep", lit "Oct", lit "Nov", lit "Dec"]

/-- `regexes['match']['time'] = r'\d{1,2}[.:]\d{2}(?:[apAP]\.?[mM]\.?)?'` -/
def timeRE : RE :=
  catList
    [RE.cls isDig, RE.opt (RE.cls isDig),
     RE.cls (fun c => c = '.' || c = ':'),
     RE.cls isDig, RE.cls isDig,
     RE.opt (catList
       [RE.cls (fun c => c = 'a' || c = 'p' || c = 'A' || c = 'P'),
        RE.opt (lit "."),
        RE.cls (fun c => c = 'm' || c = 'M'),
        RE.opt (lit ".")])]

/-- `regexes['match']['year0,1']`, stored on source line 48 as the raw
string `[1-9]\d` followed by a doubled open brace, `0,1`, and a doubled
close brace.  Unlike the sibling entry on line 54, this assignment has no
`.format()` call, so the doubled braces are never collapsed into the
quantifier `{0,1}`: Python `re` parses the stored pattern as a nonzero
digit, a digit, an optional literal open brace and a mandatory literal
close brace (it matches `"19}"` but never a bare 1-2 digit number).  The
composing `.format` calls insert this string verbatim, so the literal
braces survive into every pattern built from it. -/
def year01RE : RE :=
  catList
    [RE.cls isDig19, RE.cls isDig,
     RE.opt (RE.cls (fun c => c.toNat = 123)),
     RE.cls (fun c => c.toNat = 125)]

/-- `regexes['match']['year0,1-plus-suffix']`: the (brace-carrying)
`year0,1` pattern, a space and a mandatory era suffix. -/
def year01SufRE : RE := catList [year01RE, lit " ", suffixRE]

/-- `regexes['match']['year2,3'] = r'[1-9]\d{2,3}'` (the `.format` call on
this entry in the source has no placeholder to fill and is the identity). -/
def year23RE : RE :=
  catList [RE.cls isDig19, RE.cls isDig, RE.cls isDig, RE.opt (RE.cls isDig)]

/-- `regexes['match']['year2,3-plus-suffix']`: a 3-4 digit year and an
optional space-plus-suffix. -/
def year23SufRE : RE := RE.cat year23RE (RE.opt (RE.cat (lit " ") suffixRE))

/-- `regexes['match']['year']`: the (brace-carrying) 1-2 digit alternative
with suffix, or a 3-4 digit year with optional suffix. -/
def yearRE : RE := RE.alt year01SufRE year23SufRE

/-- `regexes['capture']['year0,1-plus-suffix'] = r'({}) ({})'` formatted
with the `year0,1` and `suffix` entries (groups 1 and 2).  Group 1 wraps
the stored `year0,1` string verbatim, literal braces included. -/
def capYear01SufRE : RE :=
  catList [RE.grp 1 year01RE, lit " ", RE.grp 2 suffixRE]

/-- `regexes['capture']['year2,3-plus-suffix'] = r'([1-9]\d{2,3})(?: (suffix))?'`
(groups 3 and 4 in the combined capture pattern). -/
def capYear23SufRE : RE :=
  RE.cat (RE.grp 3 year23RE) (RE.opt (RE.cat (lit " ") (RE.grp 4 suffixRE)))

/-- `regexes['capture']['year']`: group 1 = the brace-carrying `year0,1`
text, group 2 = its suffix, group 3 = 3-4 digit year, group 4 = its
suffix. -/
def capYearRE : RE := RE.alt capYear01SufRE capYear23SufRE

/-- `regexes['match']['year?'] = r'[1-9]\d{1,2}\d?[-*?]'` -/
def yearQRE : RE :=
  catList
    [RE.cls isDig19, RE.cls isDig, RE.opt (RE.cls isDig), RE.opt (RE.cls isDig),
     RE.cls (fun c => c = '-' || c = '*' || c = '?')]

/-- `(?=\D|$)`: the next character, if any, is not a digit. -/
def lookNonDigitOrEnd : RE :=
  RE.look (fun oc => match oc with
    | none => true
    | some c => isNonDig c)

/-- `regexes['match']['year-mm']`: a year, optionally followed by either a
separator (`-` or `/`) plus a two-digit month, or an uncertainty marker
(`-`, `*` or `?`), with the lookahead `(?=\D|$)`. -/
def yearMmRE : RE :=
  catList
    [yearRE,
     RE.opt (RE.alt (RE.cat (RE.cls (fun c => c = '-' || c = '/')) mmRE)
       (RE.cls (fun c => c = '-' || c = '*' || c = '?'))),
     lookNonDigitOrEnd]

/-- `regexes['match']['year-year']`: two `year-mm` forms separated by `-` or
`/` with optional surrounding whitespace. -/
def yearYearRE : RE :=
  catList
    [yearMmRE, RE.starCls isSpaceCh, RE.cls (fun c => c = '-' || c = '/'),
     RE.starCls isSpaceCh, yearMmRE]

/-- `regexes['match']['dd-mon-year-time'] = r'dd\s+mon\s+year(?:\.\s+time)?'` -/
def ddMonYearTimeRE : RE :=
  catList
    [ddRE, RE.plusCls isSpaceCh, monRE, RE.plusCls isSpaceCh, yearRE,
     RE.opt (catList [lit ".", RE.plusCls isSpaceCh, timeRE])]

/-- `regexes['match']['century'] = r'(?:1st|2nd|3rd|(?:[4-9]|1[0-9]|20)th)\s+[cC](?:entury)?'` -/
def centuryRE : RE :=
  catList
    [altList
      [lit "1st", lit "2nd", lit "3rd",
       RE.cat (altList
         [RE.cls (fun c => 52 ≤ c.toNat && c.toNat ≤ 57),
          RE.cat (lit "1") (RE.cls isDig),
          lit "20"]) (lit "th")],
     RE.plusCls isSpaceCh,
     RE.cls (fun c => c = 'c' || c = 'C'),
     RE.opt (lit "entury")]

/-- `regexes['match']['century-plus-suffix'] = r'century(?:\s+suffix)?'` -/
def centurySufRE : RE :=
  RE.cat centuryRE (RE.opt (RE.cat (RE.plusCls isSpaceCh) suffixRE))

/-- `regexes['match']['date']`: the composite matcher, with one capture
group around each alternative, tried in the source's order: century (1),
year range (2), day-month-year-time (3), uncertain year (4), plain year (5). -/
def dateRE : RE :=
  altList
    [RE.grp 1 centurySufRE, RE.grp 2 yearYearRE, RE.grp 3 ddMonYearTimeRE,
     RE.grp 4 yearQRE, RE.grp 5 yearRE]

/-- `regexes['substitution']['year-year-splitter']`: the `year-year` pattern
with each `year-mm` side captured (groups 1 and 2). -/
def splitterRE : RE :=
  catList
    [RE.grp 1 yearMmRE, RE.starCls isSpaceCh,
     RE.cls (fun c => c = '-' || c = '/'),
     RE.starCls isSpaceCh, RE.grp 2 yearMmRE]

/-- `regexes['substitution']['dd-mon-year-time'] = r'dd\s+mon\s+(year)(?:\.\s+time)?'` -/
def subDdMonYearTimeRE : RE :=
  catList
    [ddRE, RE.plusCls isSpaceCh, monRE, RE.plusCls isSpaceCh, RE.grp 1 yearRE,
     RE.opt (catList [lit ".", RE.plusCls isSpaceCh, timeRE])]

/-- `regexes['capture']['century-plus-suffix'] = r'(century)(?:\s+(suffix))?'` -/
def capCenturySufRE : RE :=
  RE.cat (RE.grp 1 centuryRE)
    (RE.opt (RE.cat (RE.plusCls isSpaceCh) (RE.grp 2 suffixRE)))

/-- `re.compile(r'[1-9]\d{3}')` from `_date_match_to_int_or_tuple`. -/
def fourDigitsRE : RE :=
  catList [RE.cls isDig19, RE.cls isDig, RE.cls isDig, RE.cls isDig]

/-- `re.compile('(^\\d{4}$)')` from `_resolve_unknown_ones`. -/
def exactlyFourDigitsRE : RE :=
  RE.grp 1 (catList
    [RE.cls isDig, RE.cls isDig, RE.cls isDig, RE.cls isDig,
     RE.look (fun oc => oc.isNone)])

/-- `re.compile('(^\\d{1,3})[-*?]$')` from `_resolve_unknown_ones`. -/
def oneToThreeDigitsMarkerRE : RE :=
  catList
    [RE.grp 1 (catList [RE.cls isDig, RE.opt (RE.cls isDig), RE.opt (RE.cls isDig)]),
     RE.cls (fun c => c = '-' || c = '*' || c = '?'),
     RE.look (fun oc => oc.isNone)]

/-! ## `re.findall`, `re.sub`, `str.split`, `str.strip`, `int()` -/

/-- One tuple of `re.findall(regexes['match']['date'], s)`: the texts of the
five capture groups, with `''` for a group that did not participate (Python
`findall` turns `None` groups into empty strings). -/
structure DateMatch where
  g1 : String
  g2 : String
  g3 : String
  g4 : String
  g5 : String
deriving DecidableEq, Repr

/-- Build a `DateMatch` from the capture list of one match of `dateRE`. -/
def dateMatchOfCaps (caps : Caps) : DateMatch :=
  ⟨(capsGet caps 1).getD "", (capsGet caps 2).getD "", (capsGet caps 3).getD "",
   (capsGet caps 4).getD "", (capsGet caps 5).getD ""⟩

/-- Scanning loop of `re.findall(dateRE, ·)`: at each position try an
anchored match; on success record the groups and continue after the matched
text, otherwise advance one character.  (Every alternative of `dateRE`
matches at least one character, and the guard keeps the recursion on fuel
wellfounded in any case.) -/
def findallAux : Nat → List Char → List DateMatch
  | 0, _ => []
  | _ + 1, [] => []
  | fuel + 1, cs =>
    match reMatch dateRE cs [] (fun rem caps => some (rem, caps)) with
    | some (rem, caps) =>
      if rem.length < cs.length then
        dateMatchOfCaps caps :: findallAux fuel rem
      else
        dateMatchOfCaps caps :: findallAux fuel (cs.drop 1)
    | none => findallAux fuel (cs.drop 1)

/-- `re.findall(re.compile(self.regexes['match']['date']), date_string)`. -/
def findallDate (s : String) : List DateMatch := findallAux s.length s.data

/-- `re.sub(r, tmpl, ·)`: replace every non-overlapping leftmost match of
`r` by the template applied to its captures. -/
def subAllAux (r : RE) (tmpl : Caps → List Char) : Nat → List Char → List Char
  | 0, cs => cs
  | _ + 1, [] => []
  | fuel + 1, cs =>
    match reMatch r cs [] (fun rem caps => some (rem, caps)) with
    | some (rem, caps) =>
      if rem.length < cs.length then tmpl caps ++ subAllAux r tmpl fuel rem
      else cs.headD ' ' :: subAllAux r tmpl fuel (cs.drop 1)
    | none => cs.headD ' ' :: subAllAux r tmpl fuel (cs.drop 1)

/-- `re.sub` on a string. -/
def subAll (r : RE) (tmpl : Caps → List Char) (s : String) : String :=
  String.mk (subAllAux r tmpl s.data.length s.data)

/-- `str.split(sep)` for a non-empty separator. -/
def splitSepAux (sep : List Char) : Nat → List Char → List Char → List (List Char)
  | 0, acc, cs => [acc.reverse ++ cs]
  | _ + 1, acc, [] => [acc.reverse]
  | fuel + 1, acc, c :: rest =>
    if sep.isPrefixOf (c :: rest) then
      acc.reverse :: splitSepAux sep fuel [] ((c :: rest).drop sep.length)
    else
      splitSepAux sep fuel (c :: acc) rest

/-- `str.split(sep)`. -/
def splitSep (sep : String) (s : String) : List String :=
  (splitSepAux sep.data s.data.length [] s.data).map String.mk

/-- `str.strip()`: remove leading and trailing whitespace. -/
def pyStrip (s : String) : String :=
  String.mk (((s.data.dropWhile isSpaceCh).reverse.dropWhile isSpaceCh).reverse)

/-- `str.lstrip(alpha + ' ')` with `alpha` the 52 ASCII letters, from
`_extract_year_data`. -/
def lstripAlphaSpace (s : String) : String :=
  String.mk (s.data.dropWhile (fun c =>
    (97 ≤ c.toNat && c.toNat ≤ 122) || (65 ≤ c.toNat && c.toNat ≤ 90) ||
    c.toNat = 32))

/-- Digit-sequence reader used by `strToInt`. -/
def readNatAux : List Char → Nat → Option Nat
  | [], acc => some acc
  | c :: rest, acc =>
    if isDig c then readNatAux rest (acc * 10 + digitVal c) else none

/-- Read a non-empty all-digit string as a natural number. -/
def readNat (cs : List Char) : Option Nat :=
  if cs.isEmpty then none else readNatAux cs 0

/-- Python `int(str)`: optional surrounding whitespace, optional sign, then
one or more decimal digits; anything else raises `ValueError` (`none`). -/
def strToInt (s : String) : Option Int :=
  match (s.data.dropWhile isSpaceCh).reverse.dropWhile isSpaceCh |>.reverse with
  | [] => none
  | c :: rest =>
    if c = '-' then (readNat rest).map (fun n => -(n : Int))
    else if c = '+' then (readNat rest).map (fun n => (n : Int))
    else (readNat (c :: rest)).map (fun n => (n : Int))

/-- `int(s)` as a Python computation: `ValueError` on failure. -/
def pyInt (s : String) : Py Int :=
  match strToInt s with
  | some n => .ok n
  | none => .exc .valueError

/-- `int(x)` where `x` is `match.group(i) or match.group(j)`: applying
`int` to `None` raises `TypeError`. -/
def pyIntOptStr (x : Option String) : Py Int :=
  match x with
  | some d => pyInt d
  | none => .exc .typeError

/-! ## Value resolver (`_date_match_to_int_or_tuple`, `_resolve_unknown_ones`) -/

/-- An element of the preprocessed year data: a single year (`int`) or a
year range (`tuple`). -/
abbrev YearData := Int ⊕ (Int × Int)

/-- `re.compile(regexes['match']['suffix-bce']).match(sfx) is not None`. -/
def isBceStr (sfx : String) : Bool := (anchMatch suffixBceRE sfx).isSome

/-- Century branch of `_date_match_to_int_or_tuple` (`m[0] != ''`):
`century = int(re.match('\d+', m[0]).group(0))`, then the capture variant of
`century-plus-suffix` is matched against `m[0]` and the era suffix decides
the sign of the produced range. -/
def centuryBranch (g1 : String) : Py YearData :=
  let digits := g1.data.takeWhile isDig
  if digits.isEmpty then .exc .attributeError
  else
    match pyInt (String.mk digits) with
    | .exc e => .exc e
    | .ok century =>
      match anchMatch capCenturySufRE g1 with
      | none => .exc .attributeError
      | some (_, caps) =>
        match capsGet caps 2 with
        | some sfx =>
          if isBceStr sfx then
            .ok (Sum.inr (100 * (-century), 100 * (-century) + 99))
          else
            .ok (Sum.inr (100 * (century - 1), 100 * (century - 1) + 99))
        | none => .ok (Sum.inr (100 * (century - 1), 100 * (century - 1) + 99))

/-- The pieces of the year-range text: `re.sub(year-year-splitter,
r'\1>|<\2', m[1]).split('>|<')`. -/
def splitPieces (g2 : String) : List String :=
  splitSep ">|<"
    (subAll splitterRE
      (fun caps =>
        ((capsGet caps 1).getD "").data ++ ['>', '|', '<'] ++
          ((capsGet caps 2).getD "").data)
      g2)

/-- The `for y in ...` loop of the year-range branch.  State: the list
`range_of_stuff`, the flag `first_none` (Python `None`/`False`/`True` as
`Option Bool`) and the index `i`.  A piece on which the capture pattern does
not match would make `match.group(2)` raise `AttributeError`; `int(None)`
(both digit groups absent) would raise `TypeError`. -/
def rangeLoopAux : List String → Nat → Option Bool → List Int →
    Py (List Int × Option Bool)
  | [], _, firstNone, rs => .ok (rs, firstNone)
  | piece :: rest, i, firstNone, rs =>
    let y := pyStrip piece
    match anchMatch capYearRE y with
    | none => .exc .attributeError
    | some (_, caps) =>
      let suffix := (capsGet caps 2).orElse (fun _ => capsGet caps 4)
      let digits := (capsGet caps 1).orElse (fun _ => capsGet caps 3)
      match suffix with
      | some sfx =>
        let fn := if i = 0 then some false else firstNone
        match pyIntOptStr digits with
        | .ok v =>
          rangeLoopAux rest (i + 1) fn (rs ++ [if isBceStr sfx then -v else v])
        | .exc e => .exc e
      | none =>
        let fn := if i = 0 then some true else firstNone
        match pyIntOptStr digits with
        | .ok v => rangeLoopAux rest (i + 1) fn (rs ++ [v])
        | .exc e => .exc e

/-- `years = (range_of_stuff[0], range_of_stuff[1])`, raising `IndexError`
when the list is too short. -/
def rangePair (rs : List Int) : Py YearData :=
  match rs.get? 0, rs.get? 1 with
  | some a, some b => .ok (Sum.inr (a, b))
  | _, _ => .exc .indexError

/-- After the loop: `if first_none: if range_of_stuff[1] <= 0:
range_of_stuff[0] = -1 * range_of_stuff[0]`, then build the pair. -/
def rangeFinish (st : List Int × Option Bool) : Py YearData :=
  let rs := st.1
  if st.2 = some true then
    match rs.get? 1 with
    | none => .exc .indexError
    | some r1 =>
      if r1 ≤ 0 then
        match rs.get? 0 with
        | none => .exc .indexError
        | some r0 => rangePair (rs.set 0 (-r0))
      else rangePair rs
  else rangePair rs

/-- The year-range branch applied to an already-split list of pieces. -/
def rangeBranchPieces (pieces : List String) : Py YearData :=
  match rangeLoopAux pieces 0 none [] with
  | .ok st => rangeFinish st
  | .exc e => .exc e

/-- Year-range branch of `_date_match_to_int_or_tuple` (`m[1] != ''`). -/
def rangeBranch (g2 : String) : Py YearData :=
  rangeBranchPieces (splitPieces g2)

/-- Day-month-year branch (`m[2] != ''`): keep only the year sub-match and
apply `int` to it (this raises `ValueError` when the year text carries an
era suffix, e.g. `"500 BC"`). -/
def ddMonYearBranch (g3 : String) : Py YearData :=
  match pyInt (pyStrip (subAll subDdMonYearTimeRE
      (fun caps => ((capsGet caps 1).getD "").data) g3)) with
  | .ok n => .ok (Sum.inl n)
  | .exc e => .exc e

/-- `_resolve_unknown_ones`: a 4-digit string parses exactly; 1-3 leading
digits followed by a `-`/`*`/`?` marker get a literal `'0'` appended (round
down to the decade); otherwise the raw string is returned unchanged. -/
def resolveUnknownOnes (i : String) : Py (Int ⊕ String) :=
  match anchMatch exactlyFourDigitsRE i with
  | some (_, caps) =>
    match pyIntOptStr (capsGet caps 1) with
    | .ok n => .ok (Sum.inl n)
    | .exc e => .exc e
  | none =>
    match anchMatch oneToThreeDigitsMarkerRE i with
    | none => .ok (Sum.inr i)
    | some (_, caps) =>
      match pyInt (((capsGet caps 1).getD "") ++ "0") with
      | .ok n => .ok (Sum.inl n)
      | .exc e => .exc e

/-- Uncertain-year branch (`m[3] != ''`): if the stripped text starts with
four digits, `int` of those four digits; otherwise delegate to
`_resolve_unknown_ones` and apply `int` to its result. -/
def resolveYearQ (g4 : String) : Py YearData :=
  let y := pyStrip g4
  match anchMatch fourDigitsRE y with
  | none =>
    match resolveUnknownOnes y with
    | .ok (Sum.inl n) => .ok (Sum.inl n)
    | .ok (Sum.inr s) =>
      match pyInt s with
      | .ok n => .ok (Sum.inl n)
      | .exc e => .exc e
    | .exc e => .exc e
  | some (txt, _) =>
    match pyInt txt with
    | .ok n => .ok (Sum.inl n)
    | .exc e => .exc e

/-- Plain-year branch (`m[4] != ''`): match the capture variant of `year`
and apply the era-suffix sign rule. -/
def plainYearBranch (g5 : String) : Py YearData :=
  match anchMatch capYearRE g5 with
  | none => .exc .attributeError
  | some (_, caps) =>
    let suffix := (capsGet caps 2).orElse (fun _ => capsGet caps 4)
    let digits := (capsGet caps 1).orElse (fun _ => capsGet caps 3)
    match suffix with
    | some sfx =>
      match pyIntOptStr digits with
      | .ok v => .ok (Sum.inl (if isBceStr sfx then -v else v))
      | .exc e => .exc e
    | none =>
      match pyIntOptStr digits with
      | .ok v => .ok (Sum.inl v)
      | .exc e => .exc e

/-- Body of the `try` block of `_date_match_to_int_or_tuple`, dispatching
on the first non-empty group.  When all five groups are empty the source
executes `raise Error` with an undefined name, i.e. `NameError`. -/
def dateMatchBody (m : DateMatch) : Py YearData :=
  if m.g1 ≠ "" then centuryBranch m.g1
  else if m.g2 ≠ "" then rangeBranch m.g2
  else if m.g3 ≠ "" then ddMonYearBranch m.g3
  else if m.g4 ≠ "" then resolveYearQ m.g4
  else if m.g5 ≠ "" then plainYearBranch m.g5
  else .exc .nameError

/-- The value `_date_match_to_int_or_tuple` hands back to its caller: a
year or range on success; the initial empty `set()` when a `ValueError`
was absorbed by the `except ValueError: pass` clause; any other exception
propagates. -/
inductive ResolveOut where
  | val (y : YearData)
  | emptySet
  | raised (e : PyExc)
deriving DecidableEq, Repr

/-- `_date_match_to_int_or_tuple` with its `try/except ValueError`. -/
def dateMatchToIntOrTuple (m : DateMatch) : ResolveOut :=
  match dateMatchBody m with
  | .ok y => .val y
  | .exc .valueError => .emptySet
  | .exc e => .raised e

/-! ## Date extractor (`_extract_year_data`) and facet reducer -/

/-- The argument of the public operations: a single string or a set of
strings (a Python `set`, modelled as a list; set-iteration order is
arbitrary, which the permutation lemmas account for). -/
inductive PyData where
  | str (s : String)
  | strs (l : List String)

/-- The set comprehension `{self._date_match_to_int_or_tuple(m) for m in
matches}`: values are accumulated into a set; an element that is itself a
`set()` (the absorbed-`ValueError` outcome) is unhashable, so adding it
raises `TypeError`; any exception raised by the resolver propagates. -/
def buildSet : List DateMatch → Py (Finset YearData)
  | [] => .ok ∅
  | m :: rest =>
    match dateMatchToIntOrTuple m with
    | .val y =>
      match buildSet rest with
      | .ok s => .ok (insert y s)
      | .exc e => .exc e
    | .emptySet => .exc .typeError
    | .raised e => .exc e

/-- The regex-fallback part of `_extract_year_data`: find all matches of
the composite date pattern and build the result set (empty when there are
no matches). -/
def extractFallback (s : String) : Py (Finset YearData) :=
  let found := findallDate s
  if found.length > 0 then buildSet found else .ok ∅

/-- `_extract_year_data`.  For a single string: try the `dateutil` parse of
the whole string, then of the string with leading letters and spaces
removed (both `ValueError` failures fall through), then the regex fallback.
Applying it to a `set` (which `decades`/`years` do in their exception
handlers) makes `dateutil.parser.parse` raise `TypeError`, which the
`except ValueError` clauses do not catch. -/
def extractYearData (parse : String → Option Int) : PyData → Py (Finset YearData)
  | .strs _ => .exc .typeError
  | .str s =>
    match parse s with
    | some y => .ok {Sum.inl y}
    | none =>
      match parse (lstripAlphaSpace s) with
      | some y => .ok {Sum.inl y}
      | none => extractFallback s

/-- `set(range(start, stop, 10))`. -/
def pyRange10 (start stop : Int) : Finset Int :=
  (Finset.range ((stop - start + 9).fdiv 10).toNat).image
    (fun (k : Nat) => start + 10 * (k : Int))

/-- Decades covered by one element of the preprocessed data (body of the
loop in `_enumerate_decades`): `decade // 10 * 10` for an `int`,
`set(range(decade[0] // 10 * 10, decade[1] + 1, 10))` for a `tuple`
(Python `//` is floor division, `Int.fdiv`). -/
def decadesOfData : YearData → Finset Int
  | Sum.inl y => {Int.fdiv y 10 * 10}
  | Sum.inr (a, b) => pyRange10 (Int.fdiv a 10 * 10) (b + 1)

/-- `_enumerate_decades`: with `disjoint` true, the union of the per-element
decade sets; with `disjoint` false the function falls through and returns
`None`. -/
def enumerateDecades (pre : Finset YearData) (disjoint : Bool) :
    Option (Finset Int) :=
  if disjoint then some (pre.biUnion decadesOfData) else none

/-- `_enumerate_years`: the body is `pass`, so the function returns `None`
for every input. -/
def enumerateYears (_pre : Finset YearData) (_disjoint : Bool) :
    Option (Finset Int) :=
  none

/-! ## Public operations (`decades`, `years`) -/

/-- One step `decade_set = decade_set | self._enumerate_decades(
self._extract_year_data(datum), disjoint)` — also the body of the
`except (AssertionError, TypeError)` handler of `decades`, where `datum` is
the whole `data` argument.  `set | None` raises `TypeError`. -/
def decadesHandler (parse : String → Option Int) (data : PyData)
    (disjoint : Bool) (acc : Finset Int) : Py (Finset Int) :=
  match extractYearData parse data with
  | .exc e => .exc e
  | .ok pre =>
    match enumerateDecades pre disjoint with
    | some ds => .ok (acc ∪ ds)
    | none => .exc .typeError

/-- The `for datum in data` loop of `decades`.  An `AssertionError` or
`TypeError` raised by the body falls into the handler, which re-runs
extraction on the whole `data` value; other exceptions propagate. -/
def decadesLoop (parse : String → Option Int) (data : PyData)
    (disjoint : Bool) : Finset Int → List String → Py (Finset Int)
  | acc, [] => .ok acc
  | acc, s :: rest =>
    match decadesHandler parse (.str s) disjoint acc with
    | .ok acc' => decadesLoop parse data disjoint acc' rest
    | .exc .typeError => decadesHandler parse data disjoint acc
    | .exc .assertionError => decadesHandler parse data disjoint acc
    | .exc e => .exc e

/-- `DateCleanerAndFaceter.decades`.  For a single string the
`assert isinstance(data, set)` fails and the `except (AssertionError,
TypeError)` handler runs the single-value path with the empty accumulated
set; for a set of strings the loop runs. -/
def decadesFn (parse : String → Option Int) (data : PyData)
    (disjoint : Bool) : Py (Finset Int) :=
  match data with
  | .str _ => decadesHandler parse data disjoint ∅
  | .strs l => decadesLoop parse data disjoint ∅ l

/-- The `except TypeError` handler of `years`: re-extract from the whole
`data` value, assign `year_set = self._enumerate_years(...)` (which is
`None`) and return it. -/
def yearsHandler (parse : String → Option Int) (data : PyData)
    (disjoint : Bool) : Py (Option (Finset Int)) :=
  match extractYearData parse data with
  | .exc e => .exc e
  | .ok pre => .ok (enumerateYears pre disjoint)

/-- The `for datum in data` loop of `years`: the union
`year_set | self._enumerate_years(...)` is `set | None` and raises
`TypeError`, caught by the handler; only `TypeError` is caught. -/
def yearsLoop (parse : String → Option Int) (data : PyData)
    (disjoint : Bool) : Finset Int → List String → Py (Option (Finset Int))
  | acc, [] => .ok (some acc)
  | acc, s :: rest =>
    match extractYearData parse (.str s) with
    | .exc .typeError => yearsHandler parse data disjoint
    | .exc e => .exc e
    | .ok pre =>
      match enumerateYears pre disjoint with
      | some ys => yearsLoop parse data disjoint (acc ∪ ys) rest
      | none => yearsHandler parse data disjoint

/-- `DateCleanerAndFaceter.years`.  Unlike `decades`, the `except` clause
names only `TypeError`, so for a single string the failed
`assert isinstance(data, set)` raises `AssertionError` to the caller. -/
def yearsFn (parse : String → Option Int) (data : PyData)
    (disjoint : Bool) : Py (Option (Finset Int)) :=
  match data with
  | .str _ => .exc .assertionError
  | .strs l => yearsLoop parse data disjoint ∅ l

/-- A `dateutil` oracle on which every string fails to parse (raises
`ValueError`); date strings such as `"1920-1935"`, `"19th century"` or
`"199-?"` are of this kind for the real library. -/
def noParse : String → Option Int := fun _ => none

/-- Canonical ordinal text for a century number (1st, 2nd, 3rd, 4th, ...). -/
def ordinalStr (n : Nat) : String :=
  toString n ++
    (if n = 1 then "st" else if n = 2 then "nd" else if n = 3 then "rd" else "th")

/-- Canonical text of a century form with an optional era suffix, e.g.
`"19th century"`, `"3rd century BC"`. -/
def centuryText (n : Nat) (sfx : Option String) : String :=
  ordinalStr n ++ " century" ++
    (match sfx with
     | none => ""
     | some s => " " ++ s)

/-- A `findall` tuple whose only firing alternative is the century one. -/
def mkCenturyMatch (n : Nat) (sfx : Option String) : DateMatch :=
  ⟨centuryText n sfx, "", "", "", ""⟩

/-! ## Helper lemmas -/

theorem isDig_of_isDig19 {c : Char} (h : isDig19 c = true) : isDig c = true := by
  simp only [isDig19, Bool.and_eq_true, decide_eq_true_eq] at h
  simp only [isDig, Bool.and_eq_true, decide_eq_true_eq]
  omega

theorem isSpaceCh_of_isDig {c : Char} (h : isDig c = true) : isSpaceCh c = false := by
  simp only [isDig, Bool.and_eq_true, decide_eq_true_eq] at h
  simp only [isSpaceCh, Bool.or_eq_false_iff, decide_eq_false_iff_not]
  omega

theorem ne_dash_of_isDig {c : Char} (h : isDig c = true) : ¬c = '-' := by
  intro he
  subst he
  exact absurd h (by decide)

theorem ne_plus_of_isDig {c : Char} (h : isDig c = true) : ¬c = '+' := by
  intro he
  subst he
  exact absurd h (by decide)

theorem extractYearData_str {parse : String → Option Int} {s : String}
    (h1 : parse s = none) (h2 : parse (lstripAlphaSpace s) = none) :
    extractYearData parse (PyData.str s) = extractFallback s := by
  simp [extractYearData, h1, h2]

theorem int_fdiv_ten (a : Int) : Int.fdiv a 10 = a / 10 :=
  Int.fdiv_eq_ediv a (by norm_num)

theorem mem_pyRange10 {s t x : Int} :
    x ∈ pyRange10 s t ↔ ∃ k : Nat, x = s + 10 * (k : Int) ∧ x < t := by
  simp only [pyRange10, Finset.mem_image, Finset.mem_range]
  rw [int_fdiv_ten]
  constructor
  · rintro ⟨k, hk, rfl⟩
    exact ⟨k, rfl, by omega⟩
  · rintro ⟨k, rfl, hx⟩
    exact ⟨k, by omega, rfl⟩

theorem mem_decadesOfData_range {a b x : Int} :
    x ∈ decadesOfData (Sum.inr (a, b)) ↔
      10 ∣ x ∧ Int.fdiv a 10 * 10 ≤ x ∧ x ≤ b := by
  simp only [decadesOfData, mem_pyRange10, int_fdiv_ten]
  constructor
  · rintro ⟨k, rfl, h⟩
    exact ⟨⟨a / 10 + (k : Int), by ring⟩, by omega, by omega⟩
  · rintro ⟨⟨m, rfl⟩, h1, h2⟩
    exact ⟨(m - a / 10).toNat, by omega, by omega⟩


theorem notDig_of_marker {mk : Char} (h : mk = '-' ∨ mk = '*' ∨ mk = '?') :
    isDig mk = false := by
  rcases h with rfl | rfl | rfl <;> rfl

theorem notSpace_of_marker {mk : Char} (h : mk = '-' ∨ mk = '*' ∨ mk = '?') :
    isSpaceCh mk = false := by
  rcases h with rfl | rfl | rfl <;> rfl

theorem ruo_digits3 (d1 d2 d3 mk : Char)
    (h1 : isDig d1 = true) (h2 : isDig d2 = true) (h3 : isDig d3 = true)
    (hmk : mk ∈ (['-', '*', '?'] : List Char)) :
    resolveUnknownOnes (String.mk [d1, d2, d3, mk]) =
      Py.ok (Sum.inl
        ((10 * (100 * digitVal d1 + 10 * digitVal d2 + digitVal d3) : Nat) : Int)) := by
  have hmk' : mk = '-' ∨ mk = '*' ∨ mk = '?' := by simpa using hmk
  have hmkd : isDig mk = false := notDig_of_marker hmk'
  have hfourfail : anchMatch exactlyFourDigitsRE (String.mk [d1, d2, d3, mk]) = none := by
    simp [anchMatch, exactlyFourDigitsRE, catList, reMatch, h1, h2, h3, hmkd]
  have hthree : anchMatch oneToThreeDigitsMarkerRE (String.mk [d1, d2, d3, mk]) =
      some (String.mk [d1, d2, d3, mk], [(1, String.mk [d1, d2, d3])]) := by
    rcases hmk' with rfl | rfl | rfl <;>
      simp [anchMatch, oneToThreeDigitsMarkerRE, catList, reMatch, starTry,
        h1, h2, h3]
  have h0d : isDig '0' = true := rfl
  have h0s : isSpaceCh '0' = false := rfl
  have h0v : digitVal '0' = 0 := rfl
  have hint : strToInt (String.mk [d1, d2, d3] ++ "0") =
      some ((10 * (100 * digitVal d1 + 10 * digitVal d2 + digitVal d3) : Nat) : Int) := by
    simp [strToInt, isSpaceCh_of_isDig h1, isSpaceCh_of_isDig h2,
      isSpaceCh_of_isDig h3, ne_dash_of_isDig h1, ne_plus_of_isDig h1,
      readNat, readNatAux, h1, h2, h3, h0d, h0s, h0v]
    ring_nf
  simp only [resolveUnknownOnes, hfourfail, hthree, capsGet, pyInt]
  simp [hint]

theorem ruo_digits2 (d1 d2 mk : Char)
    (h1 : isDig d1 = true) (h2 : isDig d2 = true)
    (hmk : mk ∈ (['-', '*', '?'] : List Char)) :
    resolveUnknownOnes (String.mk [d1, d2, mk]) =
      Py.ok (Sum.inl ((10 * (10 * digitVal d1 + digitVal d2) : Nat) : Int)) := by
  have hmk' : mk = '-' ∨ mk = '*' ∨ mk = '?' := by simpa using hmk
  have hmkd : isDig mk = false := notDig_of_marker hmk'
  have hfourfail : anchMatch exactlyFourDigitsRE (String.mk [d1, d2, mk]) = none := by
    simp [anchMatch, exactlyFourDigitsRE, catList, reMatch, h1, h2, hmkd]
  have hthree : anchMatch oneToThreeDigitsMarkerRE (String.mk [d1, d2, mk]) =
      some (String.mk [d1, d2, mk], [(1, String.mk [d1, d2])]) := by
    rcases hmk' with rfl | rfl | rfl <;>
      simp [anchMatch, oneToThreeDigitsMarkerRE, catList, reMatch, starTry,
        h1, h2, hmkd]
  have h0d : isDig '0' = true := rfl
  have h0s : isSpaceCh '0' = false := rfl
  have h0v : digitVal '0' = 0 := rfl
  have hint : strToInt (String.mk [d1, d2] ++ "0") =
      some ((10 * (10 * digitVal d1 + digitVal d2) : Nat) : Int) := by
    simp [strToInt, isSpaceCh_of_isDig h1, isSpaceCh_of_isDig h2,
      ne_dash_of_isDig h1, ne_plus_of_isDig h1,
      readNat, readNatAux, h1, h2, h0d, h0s, h0v]
    ring_nf
  simp only [resolveUnknownOnes, hfourfail, hthree, capsGet, pyInt]
  simp [hint]

theorem ruo_digits1 (d1 mk : Char)
    (h1 : isDig d1 = true)
    (hmk : mk ∈ (['-', '*', '?'] : List Char)) :
    resolveUnknownOnes (String.mk [d1, mk]) =
      Py.ok (Sum.inl ((10 * digitVal d1 : Nat) : Int)) := by
  have hmk' : mk = '-' ∨ mk = '*' ∨ mk = '?' := by simpa using hmk
  have hmkd : isDig mk = false := notDig_of_marker hmk'
  have hfourfail : anchMatch exactlyFourDigitsRE (String.mk [d1, mk]) = none := by
    simp [anchMatch, exactlyFourDigitsRE, catList, reMatch, h1, hmkd]
  have hthree : anchMatch oneToThreeDigitsMarkerRE (String.mk [d1, mk]) =
      some (String.mk [d1, mk], [(1, String.mk [d1])]) := by
    rcases hmk' with rfl | rfl | rfl <;>
      simp [anchMatch, oneToThreeDigitsMarkerRE, catList, reMatch, starTry,
        h1, hmkd]
  have h0d : isDig '0' = true := rfl
  have h0s : isSpaceCh '0' = false := rfl
  have h0v : digitVal '0' = 0 := rfl
  have hint : strToInt (String.mk [d1] ++ "0") =
      some ((10 * digitVal d1 : Nat) : Int) := by
    simp [strToInt, isSpaceCh_of_isDig h1,
      ne_dash_of_isDig h1, ne_plus_of_isDig h1,
      readNat, readNatAux, h1, h0d, h0s, h0v]
    ring_nf
  simp only [resolveUnknownOnes, hfourfail, hthree, capsGet, pyInt]
  simp [hint]

theorem ryq_digits2 (d1 d2 mk : Char)
    (h1 : isDig19 d1 = true) (h2 : isDig d2 = true)
    (hmk : mk ∈ (['-', '*', '?'] : List Char)) :
    resolveYearQ (String.mk [d1, d2, mk]) =
      Py.ok (Sum.inl ((10 * (10 * digitVal d1 + digitVal d2) : Nat) : Int)) := by
  have h1' : isDig d1 = true := isDig_of_isDig19 h1
  have hmk' : mk = '-' ∨ mk = '*' ∨ mk = '?' := by simpa using hmk
  have hmkd : isDig mk = false := notDig_of_marker hmk'
  have hstrip : pyStrip (String.mk [d1, d2, mk]) = String.mk [d1, d2, mk] := by
    simp [pyStrip, isSpaceCh_of_isDig h1', notSpace_of_marker hmk']
  have hfourfail : anchMatch fourDigitsRE (String.mk [d1, d2, mk]) = none := by
    simp [anchMatch, fourDigitsRE, catList, reMatch, h1, h2, hmkd]
  simp only [resolveYearQ, hstrip, hfourfail,
    ruo_digits2 d1 d2 mk h1' h2 hmk]

theorem ryq_digits3 (d1 d2 d3 mk : Char)
    (h1 : isDig19 d1 = true) (h2 : isDig d2 = true) (h3 : isDig d3 = true)
    (hmk : mk ∈ (['-', '*', '?'] : List Char)) :
    resolveYearQ (String.mk [d1, d2, d3, mk]) =
      Py.ok (Sum.inl
        ((10 * (100 * digitVal d1 + 10 * digitVal d2 + digitVal d3) : Nat) : Int)) := by
  have h1' : isDig d1 = true := isDig_of_isDig19 h1
  have hmk' : mk = '-' ∨ mk = '*' ∨ mk = '?' := by simpa using hmk
  have hmkd : isDig mk = false := notDig_of_marker hmk'
  have hstrip : pyStrip (String.mk [d1, d2, d3, mk]) = String.mk [d1, d2, d3, mk] := by
    simp [pyStrip, isSpaceCh_of_isDig h1', notSpace_of_marker hmk']
  have hfourfail : anchMatch fourDigitsRE (String.mk [d1, d2, d3, mk]) = none := by
    simp [anchMatch, fourDigitsRE, catList, reMatch, h1, h2, h3, hmkd]
  simp only [resolveYearQ, hstrip, hfourfail,
    ruo_digits3 d1 d2 d3 mk h1' h2 h3 hmk]

/-! ## Claims -/

/-- C8: the unimplemented reduction branches return nothing rather than
producing facets: for every preprocessed input, `_enumerate_decades` with
`disjoint` false falls through its unimplemented branch and returns `None`,
and `_enumerate_years` is a no-op returning `None` for either value of the
`disjoint` flag. -/
theorem claim_C8 :
    ∀ (pre : Finset YearData) (dj : Bool),
      enumerateDecades pre false = none ∧ enumerateYears pre dj = none :=
  fun _ _ => ⟨rfl, rfl⟩

/-- C1: contrary to the claim that `decades` and `years` never raise, the
code does raise: `years` on a single string raises `AssertionError` (its
`except` clause names only `TypeError`), `years` on a non-empty set raises
`TypeError` (the `set | None` union with the `None` returned by
`_enumerate_years`, then `dateutil` applied to the set inside the handler),
and `decades` with `disjoint=False` raises `TypeError` (`set | None` with
the `None` returned by `_enumerate_decades`). -/
theorem claim_C1 :
    yearsFn noParse (PyData.str "1999") true = Py.exc PyExc.assertionError ∧
    yearsFn noParse (PyData.strs ["1999"]) true = Py.exc PyExc.typeError ∧
    decadesFn noParse (PyData.str "1920") false = Py.exc PyExc.typeError := by
  refine ⟨rfl, by decide, by decide⟩

/-- C2: with `disjoint` true the decade reduction maps every scalar year
`y` to `floor(y/10)*10` and every range `(a, b)` to exactly the multiples
of 10 from the decade containing `a` up to the raw end `b` (equivalently,
up to the decade containing `b`), and
`decades("1920-1935") = {1920, 1930}`. -/
theorem claim_C2 :
    (∀ pre : Finset YearData,
      enumerateDecades pre true = some (pre.biUnion decadesOfData)) ∧
    (∀ y : Int, decadesOfData (Sum.inl y) = {Int.fdiv y 10 * 10}) ∧
    (∀ a b x : Int,
      x ∈ decadesOfData (Sum.inr (a, b)) ↔
        10 ∣ x ∧ Int.fdiv a 10 * 10 ≤ x ∧ x ≤ b) ∧
    (∀ a b x : Int,
      x ∈ decadesOfData (Sum.inr (a, b)) ↔
        10 ∣ x ∧ Int.fdiv a 10 * 10 ≤ x ∧ x ≤ Int.fdiv b 10 * 10) ∧
    (∀ parse : String → Option Int,
      parse "1920-1935" = none →
      parse (lstripAlphaSpace "1920-1935") = none →
      decadesFn parse (PyData.str "1920-1935") true = Py.ok {1920, 1930}) := by
  refine ⟨fun _ => rfl, fun _ => rfl, fun a b x => mem_decadesOfData_range, ?_, ?_⟩
  · intro a b x
    rw [mem_decadesOfData_range, int_fdiv_ten, int_fdiv_ten]
    constructor
    · rintro ⟨⟨m, rfl⟩, h1, h2⟩
      exact ⟨⟨m, rfl⟩, h1, by omega⟩
    · rintro ⟨⟨m, rfl⟩, h1, h2⟩
      exact ⟨⟨m, rfl⟩, h1, by omega⟩
  · intro parse h1 h2
    rw [decadesFn, decadesHandler, extractYearData_str h1 h2]
    decide

/-- C2 witness: the concrete conjunct applied to the all-failing parse
oracle. -/
theorem claim_C2_witness :
    decadesFn noParse (PyData.str "1920-1935") true = Py.ok {1920, 1930} :=
  claim_C2.2.2.2.2 noParse rfl rfl

/-- C3: for every century ordinal N in 1..20, a BCE era suffix produces the
range `(-100N, -100N+99)`, while a CE suffix or no suffix produces
`(100(N-1), 100(N-1)+99)`; consequently `decades("19th century")` is the
set of the ten decades 1800..1890. -/
theorem claim_C3 :
    (∀ n : Nat, n < 21 → 1 ≤ n →
      (dateMatchToIntOrTuple (mkCenturyMatch n none) =
        ResolveOut.val (Sum.inr (100 * ((n : Int) - 1), 100 * ((n : Int) - 1) + 99))) ∧
      (∀ sfx ∈ ["BC", "B.C.", "BCE", "B.C.E."],
        dateMatchToIntOrTuple (mkCenturyMatch n (some sfx)) =
          ResolveOut.val (Sum.inr (100 * (-(n : Int)), 100 * (-(n : Int)) + 99))) ∧
      (∀ sfx ∈ ["AD", "A.D.", "CE", "C.E."],
        dateMatchToIntOrTuple (mkCenturyMatch n (some sfx)) =
          ResolveOut.val (Sum.inr (100 * ((n : Int) - 1), 100 * ((n : Int) - 1) + 99)))) ∧
    (∀ parse : String → Option Int,
      parse "19th century" = none →
      parse (lstripAlphaSpace "19th century") = none →
      decadesFn parse (PyData.str "19th century") true =
        Py.ok {1800, 1810, 1820, 1830, 1840, 1850, 1860, 1870, 1880, 1890}) := by
  constructor
  · intro n hlt hge
    interval_cases n <;>
      exact ⟨by decide, by decide, by decide⟩
  · intro parse h1 h2
    rw [decadesFn, decadesHandler, extractYearData_str h1 h2]
    decide

/-- C3 witness: the concrete conjunct applied to the all-failing parse
oracle, and the century rule applied at N = 19 with and without a BCE
suffix. -/
theorem claim_C3_witness :
    decadesFn noParse (PyData.str "19th century") true =
      Py.ok {1800, 1810, 1820, 1830, 1840, 1850, 1860, 1870, 1880, 1890} ∧
    dateMatchToIntOrTuple (mkCenturyMatch 19 (some "BC")) =
      ResolveOut.val (Sum.inr (-1900, -1801)) := by
  constructor
  · exact claim_C3.2 noParse rfl rfl
  · have h := (claim_C3.1 19 (by decide) (by decide)).2.1 "BC" (by decide)
    simpa using h

/-- C6: an uncertain-year text of 1-3 leading digits followed by a trailing
marker (`-`, `*` or `?`) resolves by appending a literal `'0'` to the
digits, i.e. rounding down to the decade, and `decades("199-?") = {1990}`. -/
theorem claim_C6 :
    (∀ d1 mk : Char, isDig d1 = true →
      mk ∈ (['-', '*', '?'] : List Char) →
      resolveUnknownOnes (String.mk [d1, mk]) =
        Py.ok (Sum.inl ((10 * digitVal d1 : Nat) : Int))) ∧
    (∀ d1 d2 mk : Char, isDig d1 = true → isDig d2 = true →
      mk ∈ (['-', '*', '?'] : List Char) →
      resolveUnknownOnes (String.mk [d1, d2, mk]) =
        Py.ok (Sum.inl ((10 * (10 * digitVal d1 + digitVal d2) : Nat) : Int))) ∧
    (∀ d1 d2 d3 mk : Char, isDig d1 = true → isDig d2 = true → isDig d3 = true →
      mk ∈ (['-', '*', '?'] : List Char) →
      resolveUnknownOnes (String.mk [d1, d2, d3, mk]) =
        Py.ok (Sum.inl
          ((10 * (100 * digitVal d1 + 10 * digitVal d2 + digitVal d3) : Nat) : Int))) ∧
    (∀ parse : String → Option Int,
      parse "199-?" = none →
      parse (lstripAlphaSpace "199-?") = none →
      decadesFn parse (PyData.str "199-?") true = Py.ok {1990}) := by
  refine ⟨fun d1 mk h1 hmk => ruo_digits1 d1 mk h1 hmk,
    fun d1 d2 mk h1 h2 hmk => ruo_digits2 d1 d2 mk h1 h2 hmk,
    fun d1 d2 d3 mk h1 h2 h3 hmk => ruo_digits3 d1 d2 d3 mk h1 h2 h3 hmk, ?_⟩
  intro parse h1 h2
  rw [decadesFn, decadesHandler, extractYearData_str h1 h2]
  decide

/-- C6 witness: the rounding rule applied to the digits 1, 9, 9 with the
`-` marker, and the concrete conjunct applied to the all-failing parse
oracle. -/
theorem claim_C6_witness :
    resolveUnknownOnes (String.mk ['1', '9', '9', '-']) =
      Py.ok (Sum.inl 1990) ∧
    decadesFn noParse (PyData.str "199-?") true = Py.ok {1990} := by
  constructor
  · have h := claim_C6.2.2.1 '1' '9' '9' '-' rfl rfl rfl (by decide)
    simpa using h
  · exact claim_C6.2.2.2 noParse rfl rfl

set_option maxRecDepth 40000 in
/-- C7: contrary to the claim, the composite date matcher does not
recognize a 1-2 digit number followed by an era suffix as a year: because
the `year0,1` pattern on source line 48 keeps its doubled braces (no
`.format()` call), it demands a literal close brace after the digits, so
the matcher finds nothing in `"55 BC"` or `"5 BC"` and they contribute
nothing.  A brace text such as `"19}" + " BC"` does match the stored
pattern.  The claim's other half is true: a bare 1-2 digit number is not
recognized either. -/
theorem claim_C7 :
    findallDate "55 BC" = [] ∧
    findallDate "5 BC" = [] ∧
    extractFallback "55 BC" = Py.ok ∅ ∧
    extractFallback "5 BC" = Py.ok ∅ ∧
    findallDate "5" = [] ∧
    findallDate "55" = [] ∧
    anchMatch year01SufRE "19\x7d BC" = some ("19\x7d BC", []) := by
  exact ⟨by decide, by decide, by decide, by decide, by decide, by decide,
    by decide⟩

set_option maxRecDepth 40000 in
/-- C5: a match whose value-resolution fails integer conversion (here the
day-month-year match `"12 Jan 500 BC"`, whose embedded year text
`"500 BC"` is handed to `int`) makes `_date_match_to_int_or_tuple` hand
back the empty `set()` after absorbing the `ValueError`; but that value is
unhashable, so the set comprehension of `_extract_year_data` raises
`TypeError` instead of keeping the sibling matches — even though the
sibling `"1999"` resolves fine on its own — and `decades` propagates the
`TypeError` to the caller instead of returning a partial result. -/
theorem claim_C5 :
    findallDate "12 Jan 500 BC and 1999" =
      [⟨"", "", "12 Jan 500 BC", "", ""⟩, ⟨"", "", "", "", "1999"⟩] ∧
    dateMatchToIntOrTuple ⟨"", "", "12 Jan 500 BC", "", ""⟩ =
      ResolveOut.emptySet ∧
    dateMatchToIntOrTuple ⟨"", "", "", "", "1999"⟩ =
      ResolveOut.val (Sum.inl 1999) ∧
    extractFallback "12 Jan 500 BC and 1999" = Py.exc PyExc.typeError ∧
    (∀ parse : String → Option Int,
      parse "12 Jan 500 BC" = none →
      parse (lstripAlphaSpace "12 Jan 500 BC") = none →
      decadesFn parse (PyData.str "12 Jan 500 BC") true =
        Py.exc PyExc.typeError) := by
  refine ⟨by decide, by decide, by decide, by decide, ?_⟩
  intro parse h1 h2
  rw [decadesFn, decadesHandler, extractYearData_str h1 h2]
  decide

/-- C5 witness: the propagation conjunct applied to the all-failing parse
oracle. -/
theorem claim_C5_witness :
    decadesFn noParse (PyData.str "12 Jan 500 BC") true =
      Py.exc PyExc.typeError :=
  claim_C5.2.2.2.2 noParse rfl rfl

theorem decadesHandler_shift {parse : String → Option Int} {s : String}
    {dj : Bool} {ds : Finset Int} (acc : Finset Int)
    (h : decadesHandler parse (PyData.str s) dj ∅ = Py.ok ds) :
    decadesHandler parse (PyData.str s) dj acc = Py.ok (acc ∪ ds) := by
  cases he : extractYearData parse (PyData.str s) with
  | exc e =>
    unfold decadesHandler at h
    rw [he] at h
    simp at h
  | ok pre =>
    unfold decadesHandler at h ⊢
    rw [he] at h ⊢
    simp only [Py.ok.injEq] at h ⊢
    cases hd : enumerateDecades pre dj with
    | none =>
      rw [hd] at h
      simp at h
    | some d =>
      rw [hd] at h
      simp at h ⊢
      simp [h]

theorem decadesLoop_ok {parse : String → Option Int} {dj : Bool}
    (data : PyData) (f : String → Finset Int) :
    ∀ (l : List String) (acc : Finset Int),
      (∀ s ∈ l, decadesFn parse (PyData.str s) dj = Py.ok (f s)) →
      decadesLoop parse data dj acc l =
        Py.ok (acc ∪ l.foldr (fun s t => f s ∪ t) ∅)
  | [], acc, _ => by simp [decadesLoop]
  | s :: rest, acc, h => by
    have hs : decadesHandler parse (PyData.str s) dj ∅ = Py.ok (f s) :=
      h s (by simp)
    have hb := decadesHandler_shift acc hs
    simp only [decadesLoop, hb]
    rw [decadesLoop_ok data f rest (acc ∪ f s) (fun t ht => h t (by simp [ht]))]
    simp [Finset.union_assoc]

theorem foldr_union_eq_biUnion (f : String → Finset Int) :
    ∀ l : List String,
      l.foldr (fun s t => f s ∪ t) ∅ = l.toFinset.biUnion f
  | [] => by simp
  | s :: rest => by
    simp [foldr_union_eq_biUnion f rest]

/-- C9: when every member string of a set of date strings yields a decade
set on its own, `decades` of the whole set returns exactly the union of the
per-string results, and the outcome is invariant under reordering of the
input (Python set-iteration order is arbitrary). -/
theorem claim_C9 :
    ∀ (parse : String → Option Int) (l : List String) (f : String → Finset Int),
      (∀ s ∈ l, decadesFn parse (PyData.str s) true = Py.ok (f s)) →
      decadesFn parse (PyData.strs l) true = Py.ok (l.toFinset.biUnion f) ∧
      (∀ x : Int, x ∈ l.toFinset.biUnion f ↔ ∃ s ∈ l, x ∈ f s) ∧
      (∀ l' : List String, l.Perm l' →
        decadesFn parse (PyData.strs l') true = Py.ok (l.toFinset.biUnion f)) := by
  intro parse l f h
  refine ⟨?_, ?_, ?_⟩
  · have hl := decadesLoop_ok (PyData.strs l) f l ∅ h
    rw [foldr_union_eq_biUnion] at hl
    simpa [decadesFn] using hl
  · intro x
    simp
  · intro l' hperm
    have h' : ∀ s ∈ l', decadesFn parse (PyData.str s) true = Py.ok (f s) :=
      fun s hs => h s (hperm.mem_iff.mpr hs)
    have hl := decadesLoop_ok (PyData.strs l') f l' ∅ h'
    rw [foldr_union_eq_biUnion] at hl
    have ht : l'.toFinset = l.toFinset := by
      ext a
      simp [List.mem_toFinset, hperm.mem_iff]
    rw [ht] at hl
    simpa [decadesFn] using hl

set_option maxRecDepth 40000 in
/-- C9 witness: the two-string set from the specification's example. -/
theorem claim_C9_witness :
    decadesFn noParse (PyData.strs ["1920-1935", "500 BC"]) true =
      Py.ok {1920, 1930, -500} := by
  have h := claim_C9 noParse ["1920-1935", "500 BC"]
      (fun s => if s = "1920-1935" then {1920, 1930} else {-500})
      (by
        intro s hs
        fin_cases hs
        · decide
        · decide)
  rw [h.1]
  decide

/-- C4: in the year-range resolver each endpoint's own era suffix
determines its sign (a BCE suffix negates it); an unsuffixed first endpoint
is tentatively positive and is re-signed negative exactly when the second
endpoint resolves to a value that is at most 0; the result is the pair in
literal match order with no reordering, so `"1000-500 BC"` resolves to
`(-1000, -500)`. -/
theorem claim_C4 :
    (∀ (p1 p2 t1 t2 d1 d2 : String) (caps1 caps2 : Caps)
      (s1 s2 : Option String) (v1 v2 : Int),
      anchMatch capYearRE (pyStrip p1) = some (t1, caps1) →
      anchMatch capYearRE (pyStrip p2) = some (t2, caps2) →
      (capsGet caps1 2).orElse (fun _ => capsGet caps1 4) = s1 →
      (capsGet caps1 1).orElse (fun _ => capsGet caps1 3) = some d1 →
      (capsGet caps2 2).orElse (fun _ => capsGet caps2 4) = s2 →
      (capsGet caps2 1).orElse (fun _ => capsGet caps2 3) = some d2 →
      strToInt d1 = some v1 →
      strToInt d2 = some v2 →
      rangeBranchPieces [p1, p2] =
        (let n2 : Int := match s2 with
          | some x => if isBceStr x then -v2 else v2
          | none => v2
        let n1 : Int := match s1 with
          | some x => if isBceStr x then -v1 else v1
          | none => if n2 ≤ 0 then -v1 else v1
        Py.ok (Sum.inr (n1, n2)))) ∧
    dateMatchToIntOrTuple ⟨"", "1000-500 BC", "", "", ""⟩ =
      ResolveOut.val (Sum.inr (-1000, -500)) := by
  constructor
  · intro p1 p2 t1 t2 d1 d2 caps1 caps2 s1 s2 v1 v2 hm1 hm2 hs1 hd1 hs2 hd2 hv1 hv2
    unfold rangeBranchPieces
    unfold rangeLoopAux
    simp only [hm1, hs1, hd1]
    cases s1 with
    | none =>
      simp only [pyIntOptStr, pyInt, hv1]
      unfold rangeLoopAux
      simp only [hm2, hs2, hd2]
      cases s2 with
      | none =>
        simp only [pyIntOptStr, pyInt, hv2]
        by_cases h2 : v2 ≤ 0 <;>
          simp [rangeLoopAux, rangeFinish, rangePair, h2]
      | some sfx2 =>
        simp only [pyIntOptStr, pyInt, hv2]
        by_cases hb2 : isBceStr sfx2 = true
        · by_cases h2 : -v2 ≤ 0 <;>
            simp [rangeLoopAux, rangeFinish, rangePair, hb2, h2]
        · by_cases h2 : v2 ≤ 0 <;>
            simp [rangeLoopAux, rangeFinish, rangePair, hb2, h2]
    | some sfx1 =>
      simp only [pyIntOptStr, pyInt, hv1]
      unfold rangeLoopAux
      simp only [hm2, hs2, hd2]
      cases s2 with
      | none =>
        simp only [pyIntOptStr, pyInt, hv2]
        simp [rangeLoopAux, rangeFinish, rangePair]
      | some sfx2 =>
        simp only [pyIntOptStr, pyInt, hv2]
        simp [rangeLoopAux, rangeFinish, rangePair]
  · decide

/-- C4 witness: the sign rule applied to the two pieces of
`"1000-500 BC"`, where the first endpoint has no suffix and the second
carries `BC`. -/
theorem claim_C4_witness :
    rangeBranchPieces ["1000", "500 BC"] = Py.ok (Sum.inr (-1000, -500)) := by
  have h := claim_C4.1 "1000" "500 BC" "1000" "500 BC" "1000" "500"
      [(3, "1000")] [(4, "BC"), (3, "500")] none (some "BC") 1000 500
      (by decide) (by decide) (by decide) (by decide) (by decide) (by decide)
      (by decide) (by decide)
  simpa using h

/-- C10: an uncertain-year text beginning with four digits followed by a
trailing uncertainty marker resolves to the exact four-digit year with the
marker discarded and no decade rounding, while texts of 2-3 leading digits
before the marker are rounded down to the decade. -/
theorem claim_C10 :
    (∀ (d1 d2 d3 d4 mk : Char),
      isDig19 d1 = true → isDig d2 = true → isDig d3 = true → isDig d4 = true →
      mk ∈ (['-', '*', '?'] : List Char) →
      resolveYearQ (String.mk [d1, d2, d3, d4, mk]) =
        Py.ok (Sum.inl
          ((1000 * digitVal d1 + 100 * digitVal d2 + 10 * digitVal d3 +
            digitVal d4 : Nat) : Int))) ∧
    (∀ (d1 d2 mk : Char), isDig19 d1 = true → isDig d2 = true →
      mk ∈ (['-', '*', '?'] : List Char) →
      resolveYearQ (String.mk [d1, d2, mk]) =
        Py.ok (Sum.inl ((10 * (10 * digitVal d1 + digitVal d2) : Nat) : Int))) ∧
    (∀ (d1 d2 d3 mk : Char),
      isDig19 d1 = true → isDig d2 = true → isDig d3 = true →
      mk ∈ (['-', '*', '?'] : List Char) →
      resolveYearQ (String.mk [d1, d2, d3, mk]) =
        Py.ok (Sum.inl
          ((10 * (100 * digitVal d1 + 10 * digitVal d2 + digitVal d3) : Nat) : Int))) := by
  refine ⟨?_, fun d1 d2 mk h1 h2 hmk => ryq_digits2 d1 d2 mk h1 h2 hmk,
    fun d1 d2 d3 mk h1 h2 h3 hmk => ryq_digits3 d1 d2 d3 mk h1 h2 h3 hmk⟩
  intro d1 d2 d3 d4 mk h1 h2 h3 h4 hmk
  have h1' : isDig d1 = true := isDig_of_isDig19 h1
  have hs1 : isSpaceCh d1 = false := isSpaceCh_of_isDig h1'
  have hs4 : isSpaceCh d4 = false := isSpaceCh_of_isDig h4
  have hmk' : mk = '-' ∨ mk = '*' ∨ mk = '?' := by simpa using hmk
  have hsm : isSpaceCh mk = false := notSpace_of_marker hmk'
  have hstrip : pyStrip (String.mk [d1, d2, d3, d4, mk]) =
      String.mk [d1, d2, d3, d4, mk] := by
    simp [pyStrip, hs1, hsm]
  have hfour : anchMatch fourDigitsRE (String.mk [d1, d2, d3, d4, mk]) =
      some (String.mk [d1, d2, d3, d4], []) := by
    simp [anchMatch, fourDigitsRE, catList, reMatch, h1, h2, h3, h4]
  have hint : strToInt (String.mk [d1, d2, d3, d4]) =
      some ((1000 * digitVal d1 + 100 * digitVal d2 + 10 * digitVal d3 +
        digitVal d4 : Nat) : Int) := by
    simp [strToInt, hs1, hs4, isSpaceCh_of_isDig h2, isSpaceCh_of_isDig h3,
      ne_dash_of_isDig h1', ne_plus_of_isDig h1', readNat, readNatAux,
      h1', h2, h3, h4]
    ring_nf
  simp only [resolveYearQ, hstrip, hfour, pyInt, hint]

/-- C10 witness: the exact-parse rule applied to `"1996?"` and the
rounding rule applied to `"199-"`. -/
theorem claim_C10_witness :
    resolveYearQ (String.mk ['1', '9', '9', '6', '?']) =
      Py.ok (Sum.inl 1996) ∧
    resolveYearQ (String.mk ['1', '9', '9', '-']) =
      Py.ok (Sum.inl 1990) := by
  constructor
  · have h := claim_C10.1 '1' '9' '9' '6' '?' rfl rfl rfl rfl (by decide)
    simpa using h
  · have h := claim_C10.2.2 '1' '9' '9' '-' rfl rfl rfl (by decide)
    simpa using h
